import Mathlib

/-!
Verification development for the GlyphMart backend (src/Backend/app.py and
src/Backend/database.py): a shallow embedding of the denormalized-counter
reconciliation subsystem (TTL cache, counter write path, lazy / admin /
background reconciliation) together with theorems about its behaviour.

Collections of the Firestore database are modelled as association lists from
document id to document, in the order the store streams them (the default
listing order used by limit() queries).  Timestamps are natural numbers
(seconds).  Counters are integers, since a corrupted denormalized counter can
hold an arbitrary value.
-/

namespace GlyphMart

/-- Association-list lookup by string key (document id or dict key). -/
def lookupA {α : Type} : List (String × α) → String → Option α
  | [], _ => none
  | (k, v) :: rest, key => if k = key then some v else lookupA rest key

/-- Association-list upsert: replaces the value at the key if present,
otherwise appends the pair (document creation order). -/
def setA {α : Type} : List (String × α) → String → α → List (String × α)
  | [], key, v => [(key, v)]
  | (k, w) :: rest, key, v =>
    if k = key then (key, v) :: rest else (k, w) :: setA rest key v

/-- Association-list removal of a key (dict.pop / document delete). -/
def removeA {α : Type} : List (String × α) → String → List (String × α)
  | [], _ => []
  | (k, w) :: rest, key =>
    if k = key then removeA rest key else (k, w) :: removeA rest key

/-!  TTL cache, from src/Backend/database.py (class DatabaseCache).
The value type is a parameter: the Python cache stores arbitrary objects. -/

/-- Cache state: the two dicts self.cache and self.cache_timestamps of
DatabaseCache.  time.time() values are modelled as Nat seconds. -/
structure DatabaseCache (α : Type) where
  cache : List (String × α)
  cache_timestamps : List (String × Nat)
deriving DecidableEq, Repr

/-- Per-category TTL settings of DatabaseCache.__init__ (seconds). -/
def ttl_settings : List (String × Nat) :=
  [("glyph_counts", 300), ("glyph_data", 600), ("user_data", 1800),
   ("admin_stats", 120), ("popular_glyphs", 900)]

/-- DatabaseCache._is_expired: a key with no timestamp is expired; otherwise
the entry is expired when its age strictly exceeds the TTL of the category
(default 300 for unknown categories, per ttl_settings.get(cache_type, 300)). -/
def DatabaseCache.is_expired {α : Type} (c : DatabaseCache α)
    (key cache_type : String) (now : Nat) : Bool :=
  match lookupA c.cache_timestamps key with
  | none => true
  | some ts => now - ts > (lookupA ttl_settings cache_type).getD 300

/-- DatabaseCache.get: returns the cached value when the key is present and
not expired, else absent (None).  The method only reads, so the cache state
is returned unchanged alongside the result. -/
def DatabaseCache.get {α : Type} (c : DatabaseCache α)
    (key cache_type : String) (now : Nat) : Option α × DatabaseCache α :=
  match lookupA c.cache key with
  | some v => if c.is_expired key cache_type now then (none, c) else (some v, c)
  | none => (none, c)

/-- DatabaseCache.set: stores the value and stamps the insertion time. -/
def DatabaseCache.set {α : Type} (c : DatabaseCache α)
    (key : String) (v : α) (now : Nat) : DatabaseCache α :=
  { cache := setA c.cache key v,
    cache_timestamps := setA c.cache_timestamps key now }

/-- DatabaseCache.delete: pops the key from both dicts. -/
def DatabaseCache.delete {α : Type} (c : DatabaseCache α)
    (key : String) : DatabaseCache α :=
  { cache := removeA c.cache key,
    cache_timestamps := removeA c.cache_timestamps key }

/-- Test whether the first character list is an initial segment of the second. -/
def listStartsWith : List Char → List Char → Bool
  | [], _ => true
  | _ :: _, [] => false
  | p :: ps, c :: cs => p = c && listStartsWith ps cs

/-- Contiguous-substring test on character lists, used to model the Python
substring operator on strings. -/
def listContainsSub (pat : List Char) : List Char → Bool
  | [] => listStartsWith pat []
  | c :: cs => listStartsWith pat (c :: cs) || listContainsSub pat cs

/-- Python substring test: pat in hay. -/
def strContainsSub (hay pat : String) : Bool :=
  listContainsSub pat.data hay.data

/-- DatabaseCache.clear_pattern: deletes every key of self.cache that has the
pattern as a substring (Python substring membership), popping it from both
dicts. -/
def DatabaseCache.clear_pattern {α : Type} (c : DatabaseCache α)
    (pat : String) : DatabaseCache α :=
  let keys := (c.cache.filter (fun p => strContainsSub p.1 pat)).map Prod.fst
  { cache := c.cache.filter (fun p => ¬ keys.contains p.1),
    cache_timestamps := c.cache_timestamps.filter (fun p => ¬ keys.contains p.1) }

/-- ReadOptimizer.invalidate_glyph_cache from src/Backend/database.py: drops
the metadata and counts entries of the glyph and clears popular lists. -/
def invalidate_glyph_cache {α : Type} (c : DatabaseCache α)
    (glyph_id : String) : DatabaseCache α :=
  ((c.delete ("glyph_" ++ glyph_id)).delete ("counts_" ++ glyph_id)).clear_pattern
    ("popular_glyphs")

/-!  Firestore document model, from src/Backend/app.py. -/

/-- A glyph document's fields relevant to the reconciliation subsystem.
Missing counter fields read as 0 via dict.get(field, 0), so the counters are
total here; lastCountSync and syncType are genuinely optional fields. -/
structure GlyphDoc where
  views : Int
  likes : Int
  downloads : Int
  lastCountSync : Option Nat
  syncType : Option String
deriving DecidableEq, Repr

/-- An event record of glyphViews / likes / glyphDownloads: the stored fields
glyphId and the actor key (userIP for views/downloads, userId for likes). -/
structure EventRecord where
  glyphId : String
  actorKey : String
deriving DecidableEq, Repr

/-- The Firestore state: the four collections used by the reconciliation
subsystem, each an association list from document id to document in the
store's default streaming order. -/
structure Store where
  glyphs : List (String × GlyphDoc)
  glyphViews : List (String × EventRecord)
  likes : List (String × EventRecord)
  glyphDownloads : List (String × EventRecord)
deriving DecidableEq, Repr

/-- Count of the event records of a collection whose glyphId field matches:
len(list(db.collection(coll).where(glyphId, ==, gid).stream())). -/
def countEvents (coll : List (String × EventRecord)) (glyph_id : String) : Nat :=
  (coll.filter (fun p => p.2.glyphId = glyph_id)).length

/-- Count of the event records whose stored (glyphId, actorKey) fields equal
the given pair. -/
def countPair (coll : List (String × EventRecord)) (glyph_id actor : String) : Nat :=
  (coll.filter (fun p => p.2 = ⟨glyph_id, actor⟩)).length

/-- One operation of a Firestore write batch, as used by the write path:
document creation (set), like deletion, and glyph-document update.  An update
of a document that does not exist fails, per the Firestore contract. -/
inductive BatchOp where
  | setView (docId : String) (rec : EventRecord)
  | setDownload (docId : String) (rec : EventRecord)
  | setLike (docId : String) (rec : EventRecord)
  | deleteLike (docId : String)
  | updateGlyph (docId : String) (f : GlyphDoc → GlyphDoc)

/-- Effect of a single batch operation.  set creates or overwrites, delete is
idempotent, update requires the target document to exist (none on a missing
document, which fails the whole batch). -/
def applyOp (s : Store) : BatchOp → Option Store
  | .setView docId rec => some { s with glyphViews := setA s.glyphViews docId rec }
  | .setDownload docId rec =>
    some { s with glyphDownloads := setA s.glyphDownloads docId rec }
  | .setLike docId rec => some { s with likes := setA s.likes docId rec }
  | .deleteLike docId => some { s with likes := removeA s.likes docId }
  | .updateGlyph docId f =>
    match lookupA s.glyphs docId with
    | some g => some { s with glyphs := setA s.glyphs docId (f g) }
    | none => none

/-- Firestore batch.commit(): applied all-or-nothing.  commitOk models the
environment (false is a transient store failure at commit time); a batch also
fails as a whole when any contained update targets a missing document.  A
failed commit leaves the store untouched (the caller keeps the prior state). -/
def commitBatch (commitOk : Bool) (s : Store) (ops : List BatchOp) : Option Store :=
  if commitOk then ops.foldlM applyOp s else none

/-- Outcome of record_view / record_download as seen by the caller. -/
inductive RecordResult where
  | recorded      -- response {recorded: true}
  | alreadyDone   -- response {recorded: false, message: already ...}
  | failed        -- exception caught, response 500
deriving DecidableEq, Repr

/-- record_view from src/Backend/app.py: dedup key glyphId_userIP; if a view
record with that id exists, no mutation and recorded=false; otherwise one
atomic batch creates the view record and increments the denormalized views
counter of the glyph document. -/
def record_view (commitOk : Bool) (s : Store) (glyph_id user_ip : String) :
    Store × RecordResult :=
  let view_id := glyph_id ++ "_" ++ user_ip
  match lookupA s.glyphViews view_id with
  | some _ => (s, .alreadyDone)
  | none =>
    match commitBatch commitOk s
        [.setView view_id ⟨glyph_id, user_ip⟩,
         .updateGlyph glyph_id (fun g => { g with views := g.views + 1 })] with
    | some s2 => (s2, .recorded)
    | none => (s, .failed)

/-- record_download from src/Backend/app.py, same shape as record_view on the
glyphDownloads collection and the downloads counter. -/
def record_download (commitOk : Bool) (s : Store) (glyph_id user_ip : String) :
    Store × RecordResult :=
  let download_id := glyph_id ++ "_" ++ user_ip
  match lookupA s.glyphDownloads download_id with
  | some _ => (s, .alreadyDone)
  | none =>
    match commitBatch commitOk s
        [.setDownload download_id ⟨glyph_id, user_ip⟩,
         .updateGlyph glyph_id (fun g => { g with downloads := g.downloads + 1 })] with
    | some s2 => (s2, .recorded)
    | none => (s, .failed)

/-- toggle_like from src/Backend/app.py: dedup key glyphId_userId; one atomic
batch either deletes the like record and decrements the likes counter, or
creates the record and increments it; on success the handler re-reads the
glyph document and returns (liked, totalLikes); on failure a 500 (none). -/
def toggle_like (commitOk : Bool) (s : Store) (glyph_id user_id : String) :
    Store × Option (Bool × Int) :=
  let like_id := glyph_id ++ "_" ++ user_id
  match lookupA s.likes like_id with
  | some _ =>
    match commitBatch commitOk s
        [.deleteLike like_id,
         .updateGlyph glyph_id (fun g => { g with likes := g.likes - 1 })] with
    | some s2 =>
      (s2, some (false, ((lookupA s2.glyphs glyph_id).map GlyphDoc.likes).getD 0))
    | none => (s, none)
  | none =>
    match commitBatch commitOk s
        [.setLike like_id ⟨glyph_id, user_id⟩,
         .updateGlyph glyph_id (fun g => { g with likes := g.likes + 1 })] with
    | some s2 =>
      (s2, some (true, ((lookupA s2.glyphs glyph_id).map GlyphDoc.likes).getD 0))
    | none => (s, none)

/-!  Reconciliation triggers, from src/Backend/app.py. -/

/-- Staleness rule of the lazy trigger in get_glyph: sync when lastCountSync
is absent, or when the last sync is more than 3600 seconds old.  A negative
time difference is not greater than 3600 in the Python code, which truncated
Nat subtraction reproduces. -/
def shouldSyncGlyph (g : GlyphDoc) (now : Nat) : Bool :=
  match g.lastCountSync with
  | none => true
  | some t => now - t > 3600

/-- Lazy detail-page sync inside get_glyph: when the glyph exists and is
stale, read the three ground-truth counts; if any differs from the stored
counter, write all three counters with lastCountSync = now and
syncType = auto_detail_page; otherwise update only lastCountSync with
syncType = auto_detail_page_no_change.  Returns the counts served to the
client (the possibly corrected views/likes/downloads), none on a 404. -/
def get_glyph (s : Store) (glyph_id : String) (now : Nat) :
    Store × Option (Int × Int × Int) :=
  match lookupA s.glyphs glyph_id with
  | none => (s, none)
  | some g =>
    if shouldSyncGlyph g now then
      let views_count : Int := countEvents s.glyphViews glyph_id
      let likes_count : Int := countEvents s.likes glyph_id
      let downloads_count : Int := countEvents s.glyphDownloads glyph_id
      if g.views ≠ views_count ∨ g.likes ≠ likes_count ∨
          g.downloads ≠ downloads_count then
        let g2 := { g with views := views_count, likes := likes_count,
                           downloads := downloads_count,
                           lastCountSync := some now,
                           syncType := some ("auto_detail_page") }
        ({ s with glyphs := setA s.glyphs glyph_id g2 },
         some (views_count, likes_count, downloads_count))
      else
        let g2 := { g with lastCountSync := some now,
                           syncType := some ("auto_detail_page_no_change") }
        ({ s with glyphs := setA s.glyphs glyph_id g2 },
         some (g.views, g.likes, g.downloads))
    else (s, some (g.views, g.likes, g.downloads))

/-- Batch size of the admin sync endpoint: min(batchSize or 100, 500). -/
def syncBatchSize (batchSizeReq : Option Nat) : Nat :=
  min (batchSizeReq.getD 100) 500

/-- Item selection of the admin sync endpoint sync_glyph_counts: a given
glyphId wins; otherwise syncAll takes the whole catalog; otherwise the first
batch-size documents of the glyphs collection in default streaming order
(collection.limit(batch_size).stream()). -/
def selectSyncIds (s : Store) (sync_all : Bool) (glyph_id? : Option String)
    (batchSizeReq : Option Nat) : List String :=
  match glyph_id? with
  | some gid => [gid]
  | none =>
    if sync_all then s.glyphs.map Prod.fst
    else (s.glyphs.take (syncBatchSize batchSizeReq)).map Prod.fst

/-- Per-glyph body of the admin sync loop: read the three ground-truth
counts, and only when at least one differs from the stored counter add an
update setting all three counters, lastCountSync = now and the
caller-dependent syncType tag.  A missing glyph document is skipped.  Returns
the new store and whether this glyph was updated. -/
def syncOneGlyph (now : Nat) (tag : String) (s : Store) (glyph_id : String) :
    Store × Bool :=
  let views_count : Int := countEvents s.glyphViews glyph_id
  let likes_count : Int := countEvents s.likes glyph_id
  let downloads_count : Int := countEvents s.glyphDownloads glyph_id
  match lookupA s.glyphs glyph_id with
  | none => (s, false)
  | some g =>
    if g.views ≠ views_count ∨ g.likes ≠ likes_count ∨
        g.downloads ≠ downloads_count then
      let g2 := { g with views := views_count, likes := likes_count,
                         downloads := downloads_count,
                         lastCountSync := some now, syncType := some tag }
      ({ s with glyphs := setA s.glyphs glyph_id g2 }, true)
    else (s, false)

/-- Structured report of the admin sync endpoint (syncedCount, totalChecked
and the syncType tag of the JSON response). -/
structure SyncReport where
  syncedCount : Nat
  totalChecked : Nat
  syncType : String
deriving DecidableEq, Repr

/-- Fold step of the admin sync loop of sync_glyph_counts: run the per-glyph
comparison and count the updated glyphs.  The document tag written on
mismatch is admin when syncAll else auto; the report tag is admin_full when
syncAll else admin_batch.  The Python code groups the updates of each 100-id
chunk into one batch committed at the chunk boundary; since the selected ids
are distinct, the updates touch distinct glyph documents and the count
queries touch only the event collections, so the chunked commits produce the
same final store as a sequential fold of this step. -/
def syncFoldStep (now : Nat) (tag : String) (acc : Store × Nat)
    (gid : String) : Store × Nat :=
  let r := syncOneGlyph now tag acc.1 gid
  (r.1, acc.2 + (if r.2 then 1 else 0))

/-- Admin endpoint wrapper combining id selection, the comparison loop and
the structured report of the JSON response. -/
def sync_glyph_counts (s : Store) (now : Nat) (sync_all : Bool)
    (glyph_id? : Option String) (batchSizeReq : Option Nat) :
    Store × SyncReport :=
  let ids := selectSyncIds s sync_all glyph_id? batchSizeReq
  let tag := if sync_all then "admin" else "auto"
  let res := ids.foldl (syncFoldStep now tag) (s, 0)
  (res.1, ⟨res.2, ids.length,
    if sync_all then "admin_full" else "admin_batch"⟩)

/-- Staleness rule of the background sweep candidate filter: lastCountSync
absent, or strictly older than the cutoff now - 7200 seconds. -/
def sweepStale (now : Nat) (g : GlyphDoc) : Bool :=
  match g.lastCountSync with
  | none => true
  | some t => t < now - 7200

/-- Candidate selection of BackgroundSyncService.sync_random_glyphs: stream
the first 2 * batch_size glyphs in default order and keep the stale ones. -/
def sweepCandidates (s : Store) (now : Nat) (batch_size : Nat) : List String :=
  ((s.glyphs.take (batch_size * 2)).filter (fun p => sweepStale now p.2)).map
    Prod.fst

/-- Per-glyph update of the background sweep: unconditionally write all three
ground-truth counts with lastCountSync = now and syncType = auto_hourly,
without comparing to the stored counters. -/
def sweepUpdateOne (now : Nat) (s : Store) (glyph_id : String) : Store :=
  let views_count : Int := countEvents s.glyphViews glyph_id
  let likes_count : Int := countEvents s.likes glyph_id
  let downloads_count : Int := countEvents s.glyphDownloads glyph_id
  match lookupA s.glyphs glyph_id with
  | none => s
  | some g =>
    let g2 := { g with views := views_count, likes := likes_count,
                       downloads := downloads_count, lastCountSync := some now,
                       syncType := some ("auto_hourly") }
    { s with glyphs := setA s.glyphs glyph_id g2 }

/-- BackgroundSyncService.sync_random_glyphs on a chosen sample: the random
sample drawn from the candidates is passed as a parameter because
random.sample is nondeterministic.  All updates go into one batch committed
at the end; the commit fails as a whole when a sampled document is missing
(batch update on a missing document), otherwise every sampled glyph is
rewritten.  Returns the new store and synced_count. -/
def sync_random_glyphs (s : Store) (now : Nat) (sample : List String) :
    Store × Nat :=
  if sample.all (fun gid => (lookupA s.glyphs gid).isSome) then
    (sample.foldl (sweepUpdateOne now) s, sample.length)
  else (s, 0)

/-- Full process state: the Firestore contents plus the in-process TTL cache
of database.py (the global db_cache). -/
structure AppState (α : Type) where
  store : Store
  cache : DatabaseCache α
deriving DecidableEq, Repr

/-- The admin sync endpoint as it acts on the full process state: the handler
in app.py operates on the Firestore client only and contains no reference to
db_cache or ReadOptimizer, so the cache component passes through unchanged. -/
def sync_glyph_counts_app {α : Type} (st : AppState α) (now : Nat)
    (sync_all : Bool) (glyph_id? : Option String) (batchSizeReq : Option Nat) :
    AppState α × SyncReport :=
  let r := sync_glyph_counts st.store now sync_all glyph_id? batchSizeReq
  (⟨r.1, st.cache⟩, r.2)

/-- Iterated like toggling (always with a successful commit), used to state
parity properties of toggle_like. -/
def toggleN : Nat → Store → String → String → Store
  | 0, s, _, _ => s
  | n + 1, s, glyph_id, user_id =>
    toggleN n (toggle_like true s glyph_id user_id).1 glyph_id user_id

/-- Net change of the likes counter after n successful toggles starting from
like-record presence liked0: zero for even n, else +1 from a not-liked start
and -1 from a liked start. -/
def netLikes (liked0 : Bool) (n : Nat) : Int :=
  if n % 2 = 1 then (if liked0 then -1 else 1) else 0

/-- The syncType document tags actually written by the code: get_glyph writes
auto_detail_page / auto_detail_page_no_change, sync_glyph_counts writes admin
(when syncAll) or auto, and the background sweep writes auto_hourly. -/
def codeSyncTypeValues : List String :=
  ["auto_detail_page", "auto_detail_page_no_change", "admin", "auto",
   "auto_hourly"]

/-- Spec-side definition, following the specification's words for comparison:
the enum of syncType tags the specification claims are stored on item
documents. -/
def specSyncTypeEnum : List String :=
  ["auto_detail_page", "auto_detail_page_no_change", "admin_full",
   "admin_batch", "auto_hourly"]

/-- Invariant on a glyphs collection: every document's syncType field is
absent or one of the tags the code writes. -/
def syncTypeInvL (l : List (String × GlyphDoc)) : Prop :=
  ∀ p ∈ l, p.2.syncType = none ∨ p.2.syncType ∈ codeSyncTypeValues.map some

/-- The syncType invariant on the whole store. -/
def syncTypeInv (s : Store) : Prop :=
  syncTypeInvL s.glyphs

/-!  Shared lemmas about the association-list primitives. -/

theorem lookupA_setA_self {α : Type} (l : List (String × α)) (k : String)
    (v : α) : lookupA (setA l k v) k = some v := by
  induction l with
  | nil => simp [setA, lookupA]
  | cons p rest ih =>
    obtain ⟨a, b⟩ := p
    by_cases h : a = k <;> simp [setA, lookupA, h, ih]

theorem lookupA_setA_ne {α : Type} (l : List (String × α)) (k k' : String)
    (v : α) (h : k ≠ k') : lookupA (setA l k v) k' = lookupA l k' := by
  induction l with
  | nil => simp [setA, lookupA, h]
  | cons p rest ih =>
    obtain ⟨a, b⟩ := p
    by_cases ha : a = k
    · subst ha
      simp [setA, lookupA, h]
    · simp [setA, lookupA, ha, ih]

theorem lookupA_removeA_self {α : Type} (l : List (String × α)) (k : String) :
    lookupA (removeA l k) k = none := by
  induction l with
  | nil => simp [removeA, lookupA]
  | cons p rest ih =>
    obtain ⟨a, b⟩ := p
    by_cases h : a = k <;> simp [removeA, lookupA, h, ih]

theorem setA_eq_append {α : Type} (l : List (String × α)) (k : String) (v : α)
    (h : lookupA l k = none) : setA l k v = l ++ [(k, v)] := by
  induction l with
  | nil => simp [setA]
  | cons p rest ih =>
    obtain ⟨a, b⟩ := p
    by_cases ha : a = k
    · simp [lookupA, ha] at h
    · simp [lookupA, ha] at h
      simp [setA, ha, ih h]

theorem mem_setA {α : Type} {l : List (String × α)} {k : String} {v : α}
    {p : String × α} (h : p ∈ setA l k v) : p = (k, v) ∨ p ∈ l := by
  induction l with
  | nil => simpa [setA] using h
  | cons q rest ih =>
    obtain ⟨a, b⟩ := q
    by_cases ha : a = k
    · simp [setA, ha] at h
      rcases h with h | h
      · exact Or.inl (by simp [h])
      · exact Or.inr (List.mem_cons_of_mem _ h)
    · simp [setA, ha] at h
      rcases h with h | h
      · exact Or.inr (by simp [h])
      · rcases ih h with h' | h'
        · exact Or.inl h'
        · exact Or.inr (List.mem_cons_of_mem _ h')

theorem countPair_append (l₁ l₂ : List (String × EventRecord))
    (gid actor : String) :
    countPair (l₁ ++ l₂) gid actor =
      countPair l₁ gid actor + countPair l₂ gid actor := by
  simp [countPair, List.filter_append]

/-- Generic preservation of a predicate along List.foldl. -/
theorem foldl_preserve {β γ : Type} (P : β → Prop) (f : β → γ → β)
    (hf : ∀ b a, P b → P (f b a)) :
    ∀ (l : List γ) (b : β), P b → P (l.foldl f b) := by
  intro l
  induction l with
  | nil => intro b hb; simpa using hb
  | cons a rest ih => intro b hb; exact ih _ (hf b a hb)

/-- DatabaseCache.get never mutates the cache: the Python method bodies of
get and is_expired only read self.cache and self.cache_timestamps. -/
theorem DatabaseCache.get_snd {α : Type} (c : DatabaseCache α)
    (key cache_type : String) (now : Nat) :
    (c.get key cache_type now).2 = c := by
  unfold DatabaseCache.get
  rcases lookupA c.cache key with _ | v
  · rfl
  · by_cases h : c.is_expired key cache_type now = true <;> simp [h]

/-!  Claim theorems. -/

/-- C6: a cache entry set at time T under the glyph_counts category
(ttl = 300) is returned by get at T + 299 and absent at T + 301; get returns
absent for a key that was never set; get performs no mutation in any case
(the returned cache state equals the input); and the expired entry remains
physically present in the map after the miss. -/
theorem cache_ttl_boundary {α : Type} (c c' : DatabaseCache α)
    (key key2 ct : String) (v : α) (T now : Nat)
    (hnever : lookupA c'.cache key2 = none) :
    ((c.set key v T).get key ("glyph_counts") (T + 299)).1 = some v ∧
    ((c.set key v T).get key ("glyph_counts") (T + 301)).1 = none ∧
    c'.get key2 ct now = (none, c') ∧
    ((c.set key v T).get key ("glyph_counts") (T + 301)).2 = c.set key v T ∧
    lookupA (((c.set key v T).get key ("glyph_counts") (T + 301)).2).cache key
      = some v := by
  have hts : lookupA (c.set key v T).cache_timestamps key = some T := by
    simp [DatabaseCache.set, lookupA_setA_self]
  have hcv : lookupA (c.set key v T).cache key = some v := by
    simp [DatabaseCache.set, lookupA_setA_self]
  have hexp₁ : (c.set key v T).is_expired key ("glyph_counts") (T + 299) = false := by
    simp [DatabaseCache.is_expired, hts, ttl_settings, lookupA]
  have hexp₂ : (c.set key v T).is_expired key ("glyph_counts") (T + 301) = true := by
    simp [DatabaseCache.is_expired, hts, ttl_settings, lookupA]
  refine ⟨?_, ?_, ?_, ?_, ?_⟩
  · simp [DatabaseCache.get, hcv, hexp₁]
  · simp [DatabaseCache.get, hcv, hexp₂]
  · simp [DatabaseCache.get, hnever]
  · exact DatabaseCache.get_snd _ _ _ _
  · rw [DatabaseCache.get_snd]
    exact hcv

/-- C6 witness: the boundary property applied to a concrete cache holding the
value 42 set at time 100 and read back at time 399. -/
theorem cache_ttl_boundary_witness :
    (((⟨[], []⟩ : DatabaseCache Nat).set ("k") 42 100).get ("k")
      ("glyph_counts") 399).1 = some 42 :=
  (cache_ttl_boundary (⟨[], []⟩ : DatabaseCache Nat) ⟨[], []⟩ ("k") ("j")
    ("glyph_counts") 42 100 0 (by decide)).1

/-- C4: when the single atomic batch of the counter write path fails to
commit (transient store failure), the whole action fails with no partial
effect: record_view and record_download return the untouched store with a
failure result, and toggle_like returns the untouched store with none. -/
theorem counter_write_path_atomic_failure (s : Store) (gid ip uid : String)
    (hv : lookupA s.glyphViews (gid ++ "_" ++ ip) = none)
    (hd : lookupA s.glyphDownloads (gid ++ "_" ++ ip) = none) :
    record_view false s gid ip = (s, .failed) ∧
    record_download false s gid ip = (s, .failed) ∧
    toggle_like false s gid uid = (s, none) := by
  refine ⟨?_, ?_, ?_⟩
  · simp [record_view, hv, commitBatch]
  · simp [record_download, hd, commitBatch]
  · unfold toggle_like
    cases h : lookupA s.likes (gid ++ "_" ++ uid) <;> simp [h, commitBatch]

/-- C4 witness: the atomic-failure property applied to a store holding one
glyph and no event records, with a failing commit. -/
theorem counter_write_path_atomic_failure_witness :
    record_view false (⟨[("g1", ⟨0, 0, 0, none, none⟩)], [], [], []⟩ : Store)
      ("g1") ("1.2.3.4") =
      ((⟨[("g1", ⟨0, 0, 0, none, none⟩)], [], [], []⟩ : Store), .failed) :=
  (counter_write_path_atomic_failure
    (⟨[("g1", ⟨0, 0, 0, none, none⟩)], [], [], []⟩ : Store) ("g1") ("1.2.3.4")
    ("u1") (by decide) (by decide)).1

/-- C10: calling record_view or record_download for an itemId with no glyph
document and no dedup record fails as a whole: the batch update of the
missing glyph document aborts the atomic batch, so no event record is
created, no counter changes, and the caller receives a failure; and when a
dedup record already exists the existence check alone returns recorded=false
without creating any state. -/
theorem record_event_missing_glyph_fails_atomically (s : Store)
    (gid ip : String) (ok : Bool) (r r' : EventRecord)
    (hglyph : lookupA s.glyphs gid = none) :
    (lookupA s.glyphViews (gid ++ "_" ++ ip) = none →
      record_view ok s gid ip = (s, .failed)) ∧
    (lookupA s.glyphDownloads (gid ++ "_" ++ ip) = none →
      record_download ok s gid ip = (s, .failed)) ∧
    (lookupA s.glyphViews (gid ++ "_" ++ ip) = some r →
      record_view ok s gid ip = (s, .alreadyDone)) ∧
    (lookupA s.glyphDownloads (gid ++ "_" ++ ip) = some r' →
      record_download ok s gid ip = (s, .alreadyDone)) := by
  refine ⟨?_, ?_, ?_, ?_⟩
  · intro hv
    cases ok <;>
      simp [record_view, hv, commitBatch, List.foldlM, applyOp, hglyph]
  · intro hd
    cases ok <;>
      simp [record_download, hd, commitBatch, List.foldlM, applyOp, hglyph]
  · intro hv
    simp [record_view, hv]
  · intro hd
    simp [record_download, hd]

/-- C10 witness: both operations fail atomically on an empty store, and both
short-circuit on an existing dedup record. -/
theorem record_event_missing_glyph_fails_atomically_witness :
    record_view true (⟨[], [], [], []⟩ : Store) ("g1") ("ip") =
      ((⟨[], [], [], []⟩ : Store), .failed) :=
  (record_event_missing_glyph_fails_atomically (⟨[], [], [], []⟩ : Store)
    ("g1") ("ip") true ⟨"g1", "ip"⟩ ⟨"g1", "ip"⟩ (by decide)).1 (by decide)

/-- C9 counterexample: a reconciliation run that changes the counters of
glyph g1 (stored views 5, ground truth 0) leaves the live glyph_counts cache
entry for g1 untouched: immediately after the run the TTL cache still serves
the stale entry, contradicting the claimed invalidation. -/
theorem sync_leaves_live_cache_entry_for_changed_item :
    ((sync_glyph_counts_app
        (⟨⟨[("g1", ⟨5, 0, 0, none, none⟩)], [], [], []⟩,
          ⟨[("counts_g1", 42)], [("counts_g1", 0)]⟩⟩ : AppState Nat)
        10 false (some ("g1")) none).1.cache.get ("counts_g1")
      ("glyph_counts") 10).1 = some 42 ∧
    (lookupA (sync_glyph_counts_app
        (⟨⟨[("g1", ⟨5, 0, 0, none, none⟩)], [], [], []⟩,
          ⟨[("counts_g1", 42)], [("counts_g1", 0)]⟩⟩ : AppState Nat)
        10 false (some ("g1")) none).1.store.glyphs ("g1")).map
      GlyphDoc.views = some 0 := by
  constructor <;> decide

/-- C9 (amended): the reconciliation endpoint performs no cache invalidation
at all: app.py's sync_glyph_counts never references the TTL cache, so the
cache component of the process state is unchanged by any reconciliation run,
for changed and unchanged items alike. -/
theorem sync_does_not_touch_cache {α : Type} (st : AppState α) (now : Nat)
    (sync_all : Bool) (glyph_id? : Option String) (bs : Option Nat) :
    (sync_glyph_counts_app st now sync_all glyph_id? bs).1.cache = st.cache :=
  rfl

/-- C2: calling record_view twice with the same (itemId, actorKey) records
on the first call and produces exactly one event record for that pair with
the views counter incremented by exactly 1; the second call returns
recorded=false and performs no mutation; and likewise for record_download. -/
theorem record_event_idempotent (s : Store) (gid actor : String)
    (g : GlyphDoc) (hg : lookupA s.glyphs gid = some g)
    (hv : lookupA s.glyphViews (gid ++ "_" ++ actor) = none)
    (hcv : countPair s.glyphViews gid actor = 0)
    (hd : lookupA s.glyphDownloads (gid ++ "_" ++ actor) = none)
    (hcd : countPair s.glyphDownloads gid actor = 0) :
    ((record_view true s gid actor).2 = .recorded ∧
     record_view true (record_view true s gid actor).1 gid actor =
       ((record_view true s gid actor).1, .alreadyDone) ∧
     countPair (record_view true s gid actor).1.glyphViews gid actor = 1 ∧
     (lookupA (record_view true s gid actor).1.glyphs gid).map GlyphDoc.views
       = some (g.views + 1)) ∧
    ((record_download true s gid actor).2 = .recorded ∧
     record_download true (record_download true s gid actor).1 gid actor =
       ((record_download true s gid actor).1, .alreadyDone) ∧
     countPair (record_download true s gid actor).1.glyphDownloads gid actor
       = 1 ∧
     (lookupA (record_download true s gid actor).1.glyphs gid).map
       GlyphDoc.downloads = some (g.downloads + 1)) := by
  obtain ⟨gl, gv, lk, gd⟩ := s
  have h1 : record_view true ⟨gl, gv, lk, gd⟩ gid actor =
      (⟨setA gl gid { g with views := g.views + 1 },
        setA gv (gid ++ "_" ++ actor) ⟨gid, actor⟩, lk, gd⟩, .recorded) := by
    simp at hg hv
    simp [record_view, hv, commitBatch, List.foldlM, applyOp, hg]
  have h2 : record_download true ⟨gl, gv, lk, gd⟩ gid actor =
      (⟨setA gl gid { g with downloads := g.downloads + 1 }, gv, lk,
        setA gd (gid ++ "_" ++ actor) ⟨gid, actor⟩⟩, .recorded) := by
    simp at hg hd
    simp [record_download, hd, commitBatch, List.foldlM, applyOp, hg]
  refine ⟨⟨?_, ?_, ?_, ?_⟩, ⟨?_, ?_, ?_, ?_⟩⟩
  · rw [h1]
  · rw [h1]
    simp [record_view, lookupA_setA_self]
  · rw [h1]
    simp only []
    rw [setA_eq_append _ _ _ (by simpa using hv), countPair_append]
    have hone : countPair [(gid ++ "_" ++ actor,
        (⟨gid, actor⟩ : EventRecord))] gid actor = 1 := by
      simp [countPair]
    simp only at hcv
    omega
  · rw [h1]
    simp [lookupA_setA_self]
  · rw [h2]
  · rw [h2]
    simp [record_download, lookupA_setA_self]
  · rw [h2]
    simp only []
    rw [setA_eq_append _ _ _ (by simpa using hd), countPair_append]
    have hone : countPair [(gid ++ "_" ++ actor,
        (⟨gid, actor⟩ : EventRecord))] gid actor = 1 := by
      simp [countPair]
    simp only at hcd
    omega
  · rw [h2]
    simp [lookupA_setA_self]

/-- C2 witness: recording a view twice on a one-glyph store with no prior
events: the first call records. -/
theorem record_event_idempotent_witness :
    (record_view true (⟨[("g1", ⟨0, 0, 0, none, none⟩)], [], [], []⟩ : Store)
      ("g1") ("1.2.3.4")).2 = .recorded :=
  (record_event_idempotent
    (⟨[("g1", ⟨0, 0, 0, none, none⟩)], [], [], []⟩ : Store) ("g1") ("1.2.3.4")
    ⟨0, 0, 0, none, none⟩ (by decide) (by decide) (by decide) (by decide)
    (by decide)).1.1

/-- C1 counterexample: the admin reconciliation endpoint run on a glyph
whose corrupted counters happen to equal the ground-truth event counts
(here 0 = 0) checks the item (totalChecked = 1) but writes nothing, so
lastCountSync is NOT set, refuting the claim that every reconciliation sets
lastCountSync for every initial counter value. -/
theorem adminSync_equal_counts_no_lastCountSync_stamp :
    (lookupA (sync_glyph_counts
        (⟨[("g1", ⟨0, 0, 0, none, none⟩)], [], [], []⟩ : Store)
        1000 false (some ("g1")) none).1.glyphs ("g1")).map
      GlyphDoc.lastCountSync = some none ∧
    (sync_glyph_counts (⟨[("g1", ⟨0, 0, 0, none, none⟩)], [], [], []⟩ : Store)
        1000 false (some ("g1")) none).2.totalChecked = 1 := by
  constructor <;> decide

/-- C1 (amended): reconciliation converges the counters: after an admin sync
targeted at an item the three stored counters equal the event counts read at
sync time, and lastCountSync = now is stamped whenever at least one counter
differed (when none differed the admin endpoint leaves the document
untouched); the lazy detail-page sync, when the item is stale, also converges
the counters and always stamps lastCountSync = now. -/
theorem reconcile_sets_counters_to_ground_truth (s : Store) (gid : String)
    (g : GlyphDoc) (now : Nat) (sync_all : Bool) (bs : Option Nat)
    (hg : lookupA s.glyphs gid = some g) :
    ((lookupA (sync_glyph_counts s now sync_all (some gid) bs).1.glyphs
        gid).map GlyphDoc.views = some (countEvents s.glyphViews gid : Int) ∧
     (lookupA (sync_glyph_counts s now sync_all (some gid) bs).1.glyphs
        gid).map GlyphDoc.likes = some (countEvents s.likes gid : Int) ∧
     (lookupA (sync_glyph_counts s now sync_all (some gid) bs).1.glyphs
        gid).map GlyphDoc.downloads
       = some (countEvents s.glyphDownloads gid : Int) ∧
     ((g.views ≠ (countEvents s.glyphViews gid : Int) ∨
       g.likes ≠ (countEvents s.likes gid : Int) ∨
       g.downloads ≠ (countEvents s.glyphDownloads gid : Int)) →
      (lookupA (sync_glyph_counts s now sync_all (some gid) bs).1.glyphs
          gid).map GlyphDoc.lastCountSync = some (some now))) ∧
    (shouldSyncGlyph g now = true →
     (lookupA (get_glyph s gid now).1.glyphs gid).map GlyphDoc.views
         = some (countEvents s.glyphViews gid : Int) ∧
     (lookupA (get_glyph s gid now).1.glyphs gid).map GlyphDoc.likes
         = some (countEvents s.likes gid : Int) ∧
     (lookupA (get_glyph s gid now).1.glyphs gid).map GlyphDoc.downloads
         = some (countEvents s.glyphDownloads gid : Int) ∧
     (lookupA (get_glyph s gid now).1.glyphs gid).map GlyphDoc.lastCountSync
         = some (some now)) := by
  have hrun : (sync_glyph_counts s now sync_all (some gid) bs).1 =
      (syncOneGlyph now (if sync_all then "admin" else "auto") s gid).1 := by
    simp [sync_glyph_counts, selectSyncIds, syncFoldStep]
  by_cases hc : g.views ≠ (countEvents s.glyphViews gid : Int) ∨
      g.likes ≠ (countEvents s.likes gid : Int) ∨
      g.downloads ≠ (countEvents s.glyphDownloads gid : Int)
  · constructor
    · rw [hrun]
      simp [syncOneGlyph, hg, hc, lookupA_setA_self]
    · intro hs
      simp [get_glyph, hg, hs, hc, lookupA_setA_self]
  · push_neg at hc
    obtain ⟨h1, h2, h3⟩ := hc
    constructor
    · rw [hrun]
      simp [syncOneGlyph, hg, h1, h2, h3, lookupA_setA_self]
    · intro hs
      simp [get_glyph, hg, hs, h1, h2, h3, lookupA_setA_self]

/-- C1 witness: a store whose glyph has a corrupted views counter (5 against
3 true view events) targeted by an admin sync. -/
theorem reconcile_sets_counters_to_ground_truth_witness :
    (lookupA (sync_glyph_counts
        (⟨[("g1", ⟨5, 0, 0, none, none⟩)],
          [("g1_a", ⟨"g1", "a"⟩), ("g1_b", ⟨"g1", "b"⟩),
           ("g1_c", ⟨"g1", "c"⟩)], [], []⟩ : Store)
        77 false (some ("g1")) none).1.glyphs ("g1")).map GlyphDoc.views
      = some ((countEvents (⟨[("g1", ⟨5, 0, 0, none, none⟩)],
          [("g1_a", ⟨"g1", "a"⟩), ("g1_b", ⟨"g1", "b"⟩),
           ("g1_c", ⟨"g1", "c"⟩)], [], []⟩ : Store).glyphViews ("g1") : Int)) :=
  (reconcile_sets_counters_to_ground_truth
    (⟨[("g1", ⟨5, 0, 0, none, none⟩)],
      [("g1_a", ⟨"g1", "a"⟩), ("g1_b", ⟨"g1", "b"⟩),
       ("g1_c", ⟨"g1", "c"⟩)], [], []⟩ : Store) ("g1")
    ⟨5, 0, 0, none, none⟩ 77 false none (by decide)).1.1

/-- C3 counterexample: an admin reconciliation of a glyph whose counters
(views 2, likes 1, downloads 0) already equal the ground-truth event counts
leaves the whole store untouched: lastCountSync keeps its old value 3 and no
no-change syncType tag is recorded, refuting the claim that every trigger
stamps lastCountSync with a no-change variant. -/
theorem adminSync_noop_leaves_doc_unstamped :
    sync_glyph_counts
      (⟨[("g1", ⟨2, 1, 0, some 3, some ("auto")⟩)],
        [("g1_a", ⟨"g1", "a"⟩), ("g1_b", ⟨"g1", "b"⟩)],
        [("g1_u", ⟨"g1", "u"⟩)], []⟩ : Store) 500 false (some ("g1")) none =
    ((⟨[("g1", ⟨2, 1, 0, some 3, some ("auto")⟩)],
        [("g1_a", ⟨"g1", "a"⟩), ("g1_b", ⟨"g1", "b"⟩)],
        [("g1_u", ⟨"g1", "u"⟩)], []⟩ : Store), ⟨0, 1, "admin_batch"⟩) := by
  decide

/-- C3 (amended): when an item's denormalized counters already equal the
ground-truth counts, the three triggers behave differently: the lazy
detail-page sync stamps lastCountSync = now with the no-change tag
auto_detail_page_no_change and leaves the counter fields at their old
values; the admin endpoint issues no write at all (store returned
unchanged, nothing stamped); and the background sweep unconditionally
writes all three counter fields together with lastCountSync = now and the
plain tag auto_hourly (never a no-change variant). -/
theorem noop_stamping_per_trigger (s : Store) (gid : String) (g : GlyphDoc)
    (now : Nat) (sync_all : Bool) (bs : Option Nat)
    (hg : lookupA s.glyphs gid = some g)
    (heqv : g.views = (countEvents s.glyphViews gid : Int))
    (heql : g.likes = (countEvents s.likes gid : Int))
    (heqd : g.downloads = (countEvents s.glyphDownloads gid : Int)) :
    (shouldSyncGlyph g now = true →
      lookupA (get_glyph s gid now).1.glyphs gid =
        some ⟨g.views, g.likes, g.downloads, some now,
          some ("auto_detail_page_no_change")⟩) ∧
    sync_glyph_counts s now sync_all (some gid) bs =
      (s, ⟨0, 1, if sync_all then "admin_full" else "admin_batch"⟩) ∧
    (lookupA (sync_random_glyphs s now [gid]).1.glyphs gid =
      some ⟨(countEvents s.glyphViews gid : Int),
        (countEvents s.likes gid : Int),
        (countEvents s.glyphDownloads gid : Int), some now,
        some ("auto_hourly")⟩ ∧
     (sync_random_glyphs s now [gid]).2 = 1) := by
  obtain ⟨gv, gl, gd, gs, gt⟩ := g
  simp only at heqv heql heqd
  subst heqv heql heqd
  refine ⟨?_, ?_, ?_, ?_⟩
  · intro hs
    simp [get_glyph, hg, hs, lookupA_setA_self]
  · simp [sync_glyph_counts, selectSyncIds, syncFoldStep, syncOneGlyph, hg]
  · simp [sync_random_glyphs, sweepUpdateOne, hg, lookupA_setA_self]
  · simp [sync_random_glyphs, hg]

/-- C3 witness: the per-trigger no-op behaviour applied to a store with one
glyph, no events and matching zero counters at time 9: the background sweep
part. -/
theorem noop_stamping_per_trigger_witness :
    lookupA (sync_random_glyphs
        (⟨[("g1", ⟨0, 0, 0, none, none⟩)], [], [], []⟩ : Store) 9
        [("g1")]).1.glyphs ("g1") =
      some ⟨0, 0, 0, some 9, some ("auto_hourly")⟩ := by
  have h := (noop_stamping_per_trigger
    (⟨[("g1", ⟨0, 0, 0, none, none⟩)], [], [], []⟩ : Store) ("g1")
    ⟨0, 0, 0, none, none⟩ 9 false none (by decide) (by decide) (by decide)
    (by decide)).2.2.1
  simpa using h

/-- Single-step behaviour of a successful toggle_like on an existing glyph:
the glyph document keeps all fields except likes, which moves by -1 when the
like record was present and +1 otherwise; the like-record presence flips;
and the caller receives the new liked flag with the post-write counter. -/
theorem toggle_like_true_step (s : Store) (gid uid : String) (g : GlyphDoc)
    (hg : lookupA s.glyphs gid = some g) :
    lookupA (toggle_like true s gid uid).1.glyphs gid =
      some { g with likes := g.likes +
        (if (lookupA s.likes (gid ++ "_" ++ uid)).isSome then -1 else 1) } ∧
    (lookupA (toggle_like true s gid uid).1.likes (gid ++ "_" ++ uid)).isSome
      = !(lookupA s.likes (gid ++ "_" ++ uid)).isSome ∧
    (toggle_like true s gid uid).2 =
      some (!(lookupA s.likes (gid ++ "_" ++ uid)).isSome,
        g.likes +
          (if (lookupA s.likes (gid ++ "_" ++ uid)).isSome then -1 else 1)) := by
  cases h : lookupA s.likes (gid ++ "_" ++ uid) with
  | some r =>
    simp [toggle_like, h, commitBatch, List.foldlM, applyOp, hg,
      lookupA_setA_self, lookupA_removeA_self, sub_eq_add_neg]
  | none =>
    simp [toggle_like, h, commitBatch, List.foldlM, applyOp, hg,
      lookupA_setA_self]

/-- Boolean helper: negation distributes over the left argument of xor. -/
theorem bool_not_xor_left (x y : Bool) : ((!x) ^^ y) = !(x ^^ y) := by
  cases x <;> cases y <;> rfl

/-- Parity helper: oddness of n + 1 is the negation of oddness of n, under
xor with any flag. -/
theorem xor_parity_succ (b : Bool) (n : Nat) :
    (b ^^ decide ((n + 1) % 2 = 1)) = !(b ^^ decide (n % 2 = 1)) := by
  by_cases h : n % 2 = 1
  · have h2 : ¬((n + 1) % 2 = 1) := by omega
    simp [h, h2]
  · have h2 : (n + 1) % 2 = 1 := by omega
    simp [h, h2]

/-- Recurrence of the net likes delta: one more toggle contributes the delta
of the current presence and continues from the flipped presence. -/
theorem netLikes_step (b : Bool) (n : Nat) :
    netLikes b (n + 1) = (if b then -1 else 1) + netLikes (!b) n := by
  by_cases h : n % 2 = 1
  · have h2 : ¬((n + 1) % 2 = 1) := by omega
    cases b <;> simp [netLikes, h, h2]
  · have h2 : (n + 1) % 2 = 1 := by omega
    cases b <;> simp [netLikes, h, h2]

/-- C5 counterexample: starting from a reachable state in which the user
already likes the glyph (like record present, counter 1), calling toggle_like
twice returns liked=true on the second call, refuting the claim that an even
number of calls always returns liked=false from any starting state. -/
theorem toggle_like_even_calls_from_liked_state :
    (toggle_like true (toggle_like true
        (⟨[("g1", ⟨0, 1, 0, none, none⟩)], [],
          [("g1_u1", ⟨"g1", "u1"⟩)], []⟩ : Store) ("g1") ("u1")).1
      ("g1") ("u1")).2 = some (true, 1) := by
  decide

/-- C5 (amended): toggle symmetry relative to the starting state: for a glyph
that exists, after n successful toggles the like-record presence equals the
initial presence xor the parity of n, the likes counter moves by the net
delta netLikes (0 for even n; +1 for odd n from a not-liked start, -1 from a
liked start, all other document fields unchanged), and the next call returns
liked equal to the initial presence xor the parity of n + 1 together with the
corresponding counter.  In particular an even number of calls restores the
original liked state and counter, and from a not-liked start an odd number of
calls leaves liked=true with the counter incremented by exactly 1. -/
theorem toggle_like_parity (s : Store) (gid uid : String) (g : GlyphDoc)
    (n : Nat) (hg : lookupA s.glyphs gid = some g) :
    lookupA (toggleN n s gid uid).glyphs gid =
      some { g with likes := g.likes + netLikes ((lookupA s.likes (gid ++ "_" ++ uid)).isSome) n } ∧
    (lookupA (toggleN n s gid uid).likes (gid ++ "_" ++ uid)).isSome =
      ((lookupA s.likes (gid ++ "_" ++ uid)).isSome ^^ decide (n % 2 = 1)) ∧
    (toggle_like true (toggleN n s gid uid) gid uid).2 =
      some (((lookupA s.likes (gid ++ "_" ++ uid)).isSome ^^
          decide ((n + 1) % 2 = 1)),
        g.likes + netLikes ((lookupA s.likes (gid ++ "_" ++ uid)).isSome)
          (n + 1)) := by
  induction n generalizing s g with
  | zero =>
    have hstep := toggle_like_true_step s gid uid g hg
    refine ⟨?_, ?_, ?_⟩
    · obtain ⟨gv, glk, gdl, gsy, gty⟩ := g
      simpa [toggleN, netLikes] using hg
    · simp [toggleN]
    · rw [show toggleN 0 s gid uid = s from rfl, hstep.2.2]
      simp [netLikes]
  | succ n ih =>
    have hstep := toggle_like_true_step s gid uid g hg
    have hIH := ih (toggle_like true s gid uid).1 _ hstep.1
    rw [hstep.2.1] at hIH
    obtain ⟨ih1, ih2, ih3⟩ := hIH
    have hTN : toggleN (n + 1) s gid uid =
        toggleN n (toggle_like true s gid uid).1 gid uid := rfl
    refine ⟨?_, ?_, ?_⟩
    · rw [hTN, ih1]
      obtain ⟨gv, glk, gdl, gsy, gty⟩ := g
      simp [netLikes_step, add_assoc]
    · rw [hTN, ih2, bool_not_xor_left, ← xor_parity_succ]
    · rw [hTN, ih3, bool_not_xor_left, ← xor_parity_succ]
      obtain ⟨gv, glk, gdl, gsy, gty⟩ := g
      simp [netLikes_step, add_assoc]

/-- C5 witness: two toggles on a one-glyph store with no prior like restore
the original document (likes back to 0, record absent). -/
theorem toggle_like_parity_witness :
    lookupA (toggleN 2 (⟨[("g1", ⟨0, 0, 0, none, none⟩)], [], [], []⟩ : Store)
      ("g1") ("u1")).glyphs ("g1") = some ⟨0, 0, 0, none, none⟩ := by
  exact (toggle_like_parity
    (⟨[("g1", ⟨0, 0, 0, none, none⟩)], [], [], []⟩ : Store) ("g1") ("u1")
    ⟨0, 0, 0, none, none⟩ 2 (by decide)).1

/-- C7 counterexample: with a catalog in which the first glyph in default
store order was recently checked (lastCountSync 1000) and the second has
never been checked (lastCountSync absent), the admin batch path with
batchSize 1 selects the recently checked first glyph and skips the
never-checked one, refuting the claim that the oldest/least-recently-checked
items are selected. -/
theorem adminSync_batch_ignores_lastCountSync_order :
    selectSyncIds (⟨[("g1", ⟨0, 0, 0, some 1000, none⟩),
        ("g2", ⟨0, 0, 0, none, none⟩)], [], [], []⟩ : Store)
      false none (some 1) = [("g1")] ∧
    (lookupA (⟨[("g1", ⟨0, 0, 0, some 1000, none⟩),
        ("g2", ⟨0, 0, 0, none, none⟩)], [], [], []⟩ : Store).glyphs
      ("g2")).map GlyphDoc.lastCountSync = some none ∧
    ("g2") ∉ selectSyncIds (⟨[("g1", ⟨0, 0, 0, some 1000, none⟩),
        ("g2", ⟨0, 0, 0, none, none⟩)], [], [], []⟩ : Store)
      false none (some 1) := by
  refine ⟨by decide, by decide, by decide⟩

/-- C7 (amended): when adminSync is invoked with neither a single itemId nor
the syncAll flag, it checks exactly min(batchSize, catalog size) items where
batchSize defaults to 100 and is capped at 500, and the items selected are
the first ones in the store's default streaming order, irrespective of
lastCountSync. -/
theorem adminSync_batch_takes_first_in_order (s : Store) (bs : Option Nat)
    (b now : Nat) :
    syncBatchSize none = 100 ∧
    syncBatchSize (some b) = min b 500 ∧
    selectSyncIds s false none bs =
      (s.glyphs.map Prod.fst).take (syncBatchSize bs) ∧
    (selectSyncIds s false none bs).length =
      min (syncBatchSize bs) s.glyphs.length ∧
    (sync_glyph_counts s now false none bs).2.totalChecked =
      min (syncBatchSize bs) s.glyphs.length := by
  refine ⟨rfl, rfl, ?_, ?_, ?_⟩
  · simp [selectSyncIds, List.map_take]
  · simp [selectSyncIds, List.length_take]
  · simp [sync_glyph_counts, selectSyncIds, List.length_take]

/-- C8 counterexample: an admin full sync of a glyph with a corrupted counter
stores syncType = admin on the document, a value outside the five-element
enum claimed by the specification (the response tag admin_full is not what is
stored). -/
theorem adminSync_writes_syncType_outside_spec_enum :
    (lookupA (sync_glyph_counts
        (⟨[("g1", ⟨5, 0, 0, none, none⟩)], [], [], []⟩ : Store)
        7 true none none).1.glyphs ("g1")).map GlyphDoc.syncType
      = some (some ("admin")) ∧
    ("admin") ∉ specSyncTypeEnum := by
  refine ⟨by decide, by decide⟩

/-- Preservation of the syncType invariant by an association-list upsert of a
document whose tag is allowed. -/
theorem syncTypeInvL_setA {l : List (String × GlyphDoc)} {k : String}
    {g : GlyphDoc} (hl : syncTypeInvL l)
    (hgood : g.syncType = none ∨ g.syncType ∈ codeSyncTypeValues.map some) :
    syncTypeInvL (setA l k g) := by
  intro p hp
  rcases mem_setA hp with h | h
  · rw [h]
    exact hgood
  · exact hl p h

/-- Preservation of the syncType invariant by the lazy detail-page sync. -/
theorem syncTypeInv_get_glyph (s : Store) (gid : String) (now : Nat)
    (hs : syncTypeInv s) : syncTypeInv (get_glyph s gid now).1 := by
  cases h : lookupA s.glyphs gid with
  | none => simpa [get_glyph, h] using hs
  | some g =>
    by_cases hsync : shouldSyncGlyph g now = true
    · by_cases hc : g.views ≠ (countEvents s.glyphViews gid : Int) ∨
          g.likes ≠ (countEvents s.likes gid : Int) ∨
          g.downloads ≠ (countEvents s.glyphDownloads gid : Int)
      · simp only [get_glyph, h, hsync, if_true, if_pos hc]
        exact syncTypeInvL_setA hs (Or.inr (by simp [codeSyncTypeValues]))
      · simp only [get_glyph, h, hsync, if_true, if_neg hc]
        exact syncTypeInvL_setA hs (Or.inr (by simp [codeSyncTypeValues]))
    · simpa [get_glyph, h, hsync] using hs

/-- Preservation of the syncType invariant by one admin-sync comparison. -/
theorem syncTypeInv_syncOneGlyph (now : Nat) (tag : String) (s : Store)
    (gid : String) (htag : tag ∈ codeSyncTypeValues) (hs : syncTypeInv s) :
    syncTypeInv (syncOneGlyph now tag s gid).1 := by
  cases h : lookupA s.glyphs gid with
  | none => simpa [syncOneGlyph, h] using hs
  | some g =>
    by_cases hc : g.views ≠ (countEvents s.glyphViews gid : Int) ∨
        g.likes ≠ (countEvents s.likes gid : Int) ∨
        g.downloads ≠ (countEvents s.glyphDownloads gid : Int)
    · simp only [syncOneGlyph, h, if_pos hc]
      exact syncTypeInvL_setA hs (Or.inr (by
        simpa using List.mem_map_of_mem some htag))
    · simpa [syncOneGlyph, h, hc] using hs

/-- Preservation of the syncType invariant by one background-sweep write. -/
theorem syncTypeInv_sweepUpdateOne (now : Nat) (s : Store) (gid : String)
    (hs : syncTypeInv s) : syncTypeInv (sweepUpdateOne now s gid) := by
  cases h : lookupA s.glyphs gid with
  | none => simpa [sweepUpdateOne, h] using hs
  | some g =>
    simp only [sweepUpdateOne, h]
    exact syncTypeInvL_setA hs (Or.inr (by simp [codeSyncTypeValues]))

/-- C8 (amended): every syncType value the reconciliation subsystem stores
lies in the set written by the code: auto_detail_page,
auto_detail_page_no_change, admin, auto, auto_hourly (the spec's claimed
admin_full / admin_batch tags are only response labels, never stored).
Formally, the invariant that every glyph document's syncType is absent or
one of these code tags is preserved by the lazy detail-page sync, the admin
endpoint, and the background sweep. -/
theorem syncType_values_invariant (s : Store) (gid : String) (now : Nat)
    (sync_all : Bool) (glyph_id? : Option String) (bs : Option Nat)
    (sample : List String) (hs : syncTypeInv s) :
    syncTypeInv (get_glyph s gid now).1 ∧
    syncTypeInv (sync_glyph_counts s now sync_all glyph_id? bs).1 ∧
    syncTypeInv (sync_random_glyphs s now sample).1 := by
  refine ⟨syncTypeInv_get_glyph s gid now hs, ?_, ?_⟩
  · have htag : (if sync_all then "admin" else "auto") ∈ codeSyncTypeValues := by
      cases sync_all <;> decide
    have hfold := foldl_preserve (fun acc : Store × Nat => syncTypeInv acc.1)
      (syncFoldStep now (if sync_all then "admin" else "auto"))
      (fun acc gid' hacc =>
        syncTypeInv_syncOneGlyph now _ acc.1 gid' htag hacc)
      (selectSyncIds s sync_all glyph_id? bs) (s, 0) hs
    simpa [sync_glyph_counts] using hfold
  · by_cases hall : sample.all (fun gid' => (lookupA s.glyphs gid').isSome)
    · have hfold := foldl_preserve syncTypeInv (sweepUpdateOne now)
        (fun st gid' hst => syncTypeInv_sweepUpdateOne now st gid' hst)
        sample s hs
      simpa [sync_random_glyphs, hall] using hfold
    · simpa [sync_random_glyphs, hall] using hs

/-- C8 witness: the invariant applied to a store whose only glyph carries the
stored tag auto_hourly, run through the background sweep. -/
theorem syncType_values_invariant_witness :
    syncTypeInv (sync_random_glyphs
      (⟨[("g1", ⟨0, 0, 0, none, some ("auto_hourly")⟩)], [], [], []⟩ : Store)
      3 [("g1")]).1 :=
  (syncType_values_invariant
    (⟨[("g1", ⟨0, 0, 0, none, some ("auto_hourly")⟩)], [], [], []⟩ : Store)
    ("g1") 3 false none none [("g1")]
    (by simp [syncTypeInv, syncTypeInvL, codeSyncTypeValues])).2.2

end GlyphMart
